import Mathlib

/-!
# Verification of the Academy Vesting storage layer

Shallow embedding of `contracts/academy/src/storage.rs` (module
`AcademyStorage`).  The Soroban host exposes two keyed stores
(`instance` and `persistent`); every key the module ever uses is one of

* the `AcademyDataKey` enum variants `Init`, `Admin`, `Token`,
  `Governance`, `Counter`, `Schedule(id)`, `UserScheduleIds(user)`,
  `ActiveSchedules`,
* the instance symbol key `"version"`,
* the four legacy persistent symbol keys `"admin"`, `"token"`, `"gov"`,
  `"cnt"`.

The `contracttype` enum encoding is injective and Symbol keys are
disjoint from enum keys, so the two stores are modelled as a record with
one field per distinct key (parameterized keys become functions from the
parameter).  `Address` is opaque and modelled as `Nat`; schedule records
are opaque to this layer and modelled by a type parameter `Rec`.
`u64`/`u32` values are modelled as `Nat`; the only arithmetic the module
performs on stored integers is `current + 1` in `increment_counter`,
where Rust aborts the transaction on `u64` overflow (overflow checks are
enabled for Soroban contract builds), modelled by returning `none`.
-/

/-- The whole observable storage state: one field per distinct key.
Fields `version` and the four `legacy*` fields stand for the Symbol
keys; every other field stands for an `AcademyDataKey` variant.
`none` means the key is absent from the store. -/
structure Env (Rec : Type) where
  init : Option Bool
  admin : Option Nat
  token : Option Nat
  governance : Option Nat
  counter : Option Nat
  version : Option Nat
  schedules : Nat → Option Rec
  userIds : Nat → Option (List Nat)
  active : Option (List Nat)
  legacyAdmin : Option Nat
  legacyToken : Option Nat
  legacyGov : Option Nat
  legacyCnt : Option Nat

/-- The state in which no key has ever been written. -/
def emptyEnv {Rec : Type} : Env Rec where
  init := none
  admin := none
  token := none
  governance := none
  counter := none
  version := none
  schedules := fun _ => none
  userIds := fun _ => none
  active := none
  legacyAdmin := none
  legacyToken := none
  legacyGov := none
  legacyCnt := none

namespace AcademyStorage

variable {Rec : Type}

/-- `const CONTRACT_VERSION: u32 = 2;` -/
def CONTRACT_VERSION : Nat := 2

/-- `is_initialized`: `env.storage().instance().has(&AcademyDataKey::Init)`. -/
def is_initialized (e : Env Rec) : Bool :=
  e.init.isSome

/-- `set_initialized`: sets `Init := true` and `Counter := 0`. -/
def set_initialized (e : Env Rec) : Env Rec :=
  { e with init := some true, counter := some 0 }

/-- `get_version`: instance key `"version"`, `unwrap_or(0)`. -/
def get_version (e : Env Rec) : Nat :=
  e.version.getD 0

/-- `set_version`: writes the instance key `"version"`. -/
def set_version (e : Env Rec) (version : Nat) : Env Rec :=
  { e with version := some version }

/-- `set_admin`: writes the instance key `Admin`. -/
def set_admin (e : Env Rec) (admin : Nat) : Env Rec :=
  { e with admin := some admin }

/-- `get_admin`: reads the instance key `Admin`. -/
def get_admin (e : Env Rec) : Option Nat :=
  e.admin

/-- `set_token`: writes the instance key `Token`. -/
def set_token (e : Env Rec) (token : Nat) : Env Rec :=
  { e with token := some token }

/-- `get_token`: reads the instance key `Token`. -/
def get_token (e : Env Rec) : Option Nat :=
  e.token

/-- `set_governance`: writes the instance key `Governance`. -/
def set_governance (e : Env Rec) (governance : Nat) : Env Rec :=
  { e with governance := some governance }

/-- `get_governance`: reads the instance key `Governance`. -/
def get_governance (e : Env Rec) : Option Nat :=
  e.governance

/-- `get_counter`: reads the instance key `Counter`, `unwrap_or(0)`. -/
def get_counter (e : Env Rec) : Nat :=
  e.counter.getD 0

/-- `increment_counter`: reads the counter, persists `current + 1`,
returns the new value.  `current + 1` is Rust `u64` addition, which
aborts the whole transaction on overflow; `none` models that abort. -/
def increment_counter (e : Env Rec) : Option (Env Rec × Nat) :=
  let current := get_counter e
  if current + 1 < 2 ^ 64 then
    let next := current + 1
    some ({ e with counter := some next }, next)
  else
    none

/-- `set_schedule`: unconditional upsert under persistent key
`Schedule(schedule_id)`. -/
def set_schedule (e : Env Rec) (schedule_id : Nat) (schedule : Rec) : Env Rec :=
  { e with schedules := fun i => if i = schedule_id then some schedule else e.schedules i }

/-- `get_schedule`: reads persistent key `Schedule(schedule_id)`. -/
def get_schedule (e : Env Rec) (schedule_id : Nat) : Option Rec :=
  e.schedules schedule_id

/-- `has_schedule`: `has` on persistent key `Schedule(schedule_id)`. -/
def has_schedule (e : Env Rec) (schedule_id : Nat) : Bool :=
  (e.schedules schedule_id).isSome

/-- `add_schedule_to_user_index`: loads the user's sequence (empty if
absent), `push_back(schedule_id)`, writes the whole sequence back. -/
def add_schedule_to_user_index (e : Env Rec) (user : Nat) (schedule_id : Nat) : Env Rec :=
  let schedule_ids := (e.userIds user).getD []
  { e with userIds := fun u => if u = user then some (schedule_ids ++ [schedule_id]) else e.userIds u }

/-- `get_user_schedule_ids`: reads `UserScheduleIds(user)`, empty if
absent. -/
def get_user_schedule_ids (e : Env Rec) (user : Nat) : List Nat :=
  (e.userIds user).getD []

/-- `get_user_schedules`: iterates the user's ids in order and
`push_back`s each schedule that resolves, skipping absent ones. -/
def get_user_schedules (e : Env Rec) (user : Nat) : List Rec :=
  let schedule_ids := get_user_schedule_ids e user
  schedule_ids.foldl
    (fun schedules schedule_id =>
      match get_schedule e schedule_id with
      | some schedule => schedules ++ [schedule]
      | none => schedules)
    []

/-- `add_to_active_index`: loads the active sequence (empty if absent),
`push_back(schedule_id)`, writes it back. -/
def add_to_active_index (e : Env Rec) (schedule_id : Nat) : Env Rec :=
  let active := e.active.getD []
  { e with active := some (active ++ [schedule_id]) }

/-- `remove_from_active_index`: loads the active sequence (empty if
absent), rebuilds a new sequence keeping every `id != schedule_id`, and
unconditionally writes the rebuilt sequence back. -/
def remove_from_active_index (e : Env Rec) (schedule_id : Nat) : Env Rec :=
  let active := e.active.getD []
  let new_active := active.foldl
    (fun new_active id => if id ≠ schedule_id then new_active ++ [id] else new_active)
    []
  { e with active := some new_active }

/-- `get_active_schedule_ids`: reads `ActiveSchedules`, empty if absent. -/
def get_active_schedule_ids (e : Env Rec) : List Nat :=
  e.active.getD []

/-- `needs_migration`: `get_version(env) < CONTRACT_VERSION`. -/
def needs_migration (e : Env Rec) : Bool :=
  get_version e < CONTRACT_VERSION

/-- `migrate_from_legacy`: probes the four legacy persistent keys in
order (`"admin"`, `"token"`, `"gov"`, `"cnt"`); each present value is
copied into the current-layout instance key and counted.  Returns the
updated state and the migrated count. -/
def migrate_from_legacy (e : Env Rec) : Env Rec × Nat :=
  let s1 : Env Rec × Nat :=
    match e.legacyAdmin with
    | some admin => (set_admin e admin, 1)
    | none => (e, 0)
  let s2 : Env Rec × Nat :=
    match s1.1.legacyToken with
    | some token => (set_token s1.1 token, s1.2 + 1)
    | none => s1
  let s3 : Env Rec × Nat :=
    match s2.1.legacyGov with
    | some gov => (set_governance s2.1 gov, s2.2 + 1)
    | none => s2
  match s3.1.legacyCnt with
  | some counter => ({ s3.1 with counter := some counter }, s3.2 + 1)
  | none => s3

/-- `migrate_storage`: version 0 sets the version to `CONTRACT_VERSION`
and reports 0; version 1 runs `migrate_from_legacy`, sets the version,
and reports the migrated count; anything else is a no-op reporting 0. -/
def migrate_storage (e : Env Rec) : Env Rec × Nat :=
  let current_version := get_version e
  if current_version = 0 then
    (set_version e CONTRACT_VERSION, 0)
  else if current_version = 1 then
    let r := migrate_from_legacy e
    (set_version r.1 CONTRACT_VERSION, r.2)
  else
    (e, 0)

/-- `has_legacy_data`: true iff any of the four legacy persistent keys
is present. -/
def has_legacy_data (e : Env Rec) : Bool :=
  e.legacyAdmin.isSome || e.legacyToken.isSome || e.legacyGov.isSome || e.legacyCnt.isSome

end AcademyStorage

namespace AcademyStorage

/-- The rebuild loop of `remove_from_active_index` is a `filter`. -/
lemma foldl_keep_ne_eq_filter (sid : Nat) (l acc : List Nat) :
    l.foldl (fun new_active id => if id ≠ sid then new_active ++ [id] else new_active) acc
      = acc ++ l.filter (fun id => id ≠ sid) := by
  induction l generalizing acc with
  | nil => simp
  | cons x xs ih =>
    rw [List.foldl_cons, ih, List.filter_cons]
    by_cases h : x = sid <;> simp [h]

/-- The resolve loop of `get_user_schedules` is a `filterMap`. -/
lemma foldl_push_some_eq_filterMap {Rec : Type} (f : Nat → Option Rec)
    (l : List Nat) (acc : List Rec) :
    l.foldl
      (fun schedules schedule_id =>
        match f schedule_id with
        | some schedule => schedules ++ [schedule]
        | none => schedules)
      acc
      = acc ++ l.filterMap f := by
  induction l generalizing acc with
  | nil => simp
  | cons x xs ih =>
    cases h : f x <;>
      simp [List.foldl_cons, List.filterMap_cons, h, ih]

/-- What `remove_from_active_index` stores under `ActiveSchedules`. -/
lemma remove_from_active_index_active {Rec : Type} (e : Env Rec) (sid : Nat) :
    (remove_from_active_index e sid).active
      = some ((e.active.getD []).filter (fun id => id ≠ sid)) :=
  congrArg some (foldl_keep_ne_eq_filter sid (e.active.getD []) [])

/-- What a successful `increment_counter` returns and stores. -/
lemma increment_counter_eq {Rec : Type} {e e' : Env Rec} {v : Nat}
    (h : increment_counter e = some (e', v)) :
    v = get_counter e + 1 ∧ get_counter e' = get_counter e + 1 := by
  simp only [increment_counter] at h
  split at h
  · simp only [Option.some.injEq, Prod.mk.injEq] at h
    obtain ⟨he, hv⟩ := h
    subst hv
    subst he
    simp [get_counter]
  · simp at h

end AcademyStorage

namespace AcademyStorage

/-- A version-1 state with all four legacy keys present (used to
exercise the legacy branch of `migrate_storage`). -/
def envLegacyFull : Env Nat :=
  { emptyEnv with
    version := some 1
    legacyAdmin := some 10
    legacyToken := some 11
    legacyGov := some 12
    legacyCnt := some 13 }

/-- C1: `needs_migration` is true exactly when the stored version is
below 2; `migrate_storage` at version 0 sets the version to 2 and
returns 0; at version 1 with all four legacy keys present it returns 4
and sets the version to 2; at version ≥ 2 it returns 0 and changes no
stored value. -/
theorem migration_state_machine {Rec : Type} (e : Env Rec) :
    (needs_migration e = true ↔ get_version e < 2) ∧
    (get_version e = 0 →
      get_version (migrate_storage e).1 = 2 ∧ (migrate_storage e).2 = 0) ∧
    (get_version e = 1 → e.legacyAdmin.isSome → e.legacyToken.isSome →
      e.legacyGov.isSome → e.legacyCnt.isSome →
      (migrate_storage e).2 = 4 ∧ get_version (migrate_storage e).1 = 2) ∧
    (2 ≤ get_version e → migrate_storage e = (e, 0)) := by
  refine ⟨by simp [needs_migration, CONTRACT_VERSION], ?_, ?_, ?_⟩
  · intro h0
    unfold get_version at h0
    simp [migrate_storage, h0, set_version, get_version, CONTRACT_VERSION]
  · intro h1 ha ht hg hc
    unfold get_version at h1
    obtain ⟨a, ha⟩ := Option.isSome_iff_exists.mp ha
    obtain ⟨t, ht⟩ := Option.isSome_iff_exists.mp ht
    obtain ⟨g, hg⟩ := Option.isSome_iff_exists.mp hg
    obtain ⟨c, hc⟩ := Option.isSome_iff_exists.mp hc
    simp [migrate_storage, h1, migrate_from_legacy, ha, ht, hg, hc,
      set_admin, set_token, set_governance, set_version, get_version,
      CONTRACT_VERSION]
  · intro h2
    have hn0 : get_version e ≠ 0 := by omega
    have hn1 : get_version e ≠ 1 := by omega
    simp [migrate_storage, hn0, hn1]

/-- C1 witness: the four branches exercised at concrete states. -/
theorem migration_state_machine_witness :
    ((migrate_storage envLegacyFull).2 = 4 ∧
      get_version (migrate_storage envLegacyFull).1 = 2) ∧
    (get_version (migrate_storage (emptyEnv : Env Nat)).1 = 2 ∧
      (migrate_storage (emptyEnv : Env Nat)).2 = 0) ∧
    migrate_storage (migrate_storage envLegacyFull).1
      = ((migrate_storage envLegacyFull).1, 0) :=
  ⟨(migration_state_machine envLegacyFull).2.2.1 rfl rfl rfl rfl rfl,
   (migration_state_machine (emptyEnv : Env Nat)).2.1 rfl,
   (migration_state_machine ((migrate_storage envLegacyFull).1)).2.2.2 (by decide)⟩

/-- C2: `remove_from_active_index id` replaces the stored active
sequence by the subsequence of elements not equal to `id` (all
occurrences removed, order preserved); adding 3 then 7 and removing 3
leaves exactly `[7]`. -/
theorem remove_from_active_index_spec {Rec : Type} (e : Env Rec) (schedule_id : Nat) :
    (get_active_schedule_ids (remove_from_active_index e schedule_id)
        = (get_active_schedule_ids e).filter (fun id => id ≠ schedule_id)) ∧
    schedule_id ∉ get_active_schedule_ids (remove_from_active_index e schedule_id) ∧
    get_active_schedule_ids
        (remove_from_active_index
          (add_to_active_index (add_to_active_index (emptyEnv : Env Nat) 3) 7) 3)
      = [7] := by
  have hfil : get_active_schedule_ids (remove_from_active_index e schedule_id)
      = (get_active_schedule_ids e).filter (fun id => id ≠ schedule_id) := by
    simp only [get_active_schedule_ids, remove_from_active_index_active, Option.getD_some]
  refine ⟨hfil, ?_, by decide⟩
  rw [hfil]
  simp

/-- C3: `migrate_storage` is additive only: the four legacy persistent
keys keep their exact presence and values, so `has_legacy_data` is
unchanged by the call. -/
theorem migrate_storage_additive {Rec : Type} (e : Env Rec) :
    (migrate_storage e).1.legacyAdmin = e.legacyAdmin ∧
    (migrate_storage e).1.legacyToken = e.legacyToken ∧
    (migrate_storage e).1.legacyGov = e.legacyGov ∧
    (migrate_storage e).1.legacyCnt = e.legacyCnt ∧
    has_legacy_data (migrate_storage e).1 = has_legacy_data e := by
  by_cases h0 : get_version e = 0
  · simp [migrate_storage, h0, set_version, has_legacy_data]
  · by_cases h1 : get_version e = 1
    · cases ha : e.legacyAdmin <;> cases ht : e.legacyToken <;>
        cases hg : e.legacyGov <;> cases hc : e.legacyCnt <;>
        simp [migrate_storage, h0, h1, migrate_from_legacy, ha, ht, hg, hc,
          set_admin, set_token, set_governance, set_version, has_legacy_data]
    · simp [migrate_storage, h0, h1]

/-- C4: Schedule Store round-trip: in the never-written state
`has_schedule` is false and `get_schedule` is absent; after
`set_schedule id r` the record reads back as `r` and `has_schedule` is
true; a second `set_schedule id r2` overwrites to `r2`. -/
theorem schedule_store_roundtrip {Rec : Type} (e : Env Rec) (id : Nat) (r r2 : Rec) :
    (has_schedule (emptyEnv : Env Rec) id = false ∧
      get_schedule (emptyEnv : Env Rec) id = none) ∧
    get_schedule (set_schedule e id r) id = some r ∧
    has_schedule (set_schedule e id r) id = true ∧
    get_schedule (set_schedule (set_schedule e id r) id r2) id = some r2 := by
  simp [has_schedule, get_schedule, set_schedule, emptyEnv]

end AcademyStorage

namespace AcademyStorage

/-- The state right after `set_initialized` on a fresh contract. -/
def envInit : Env Nat :=
  set_initialized (emptyEnv : Env Nat)

/-- C5: a successful `increment_counter` returns the new, post-increment
value `get_counter + 1`; two sequential successful calls return strictly
increasing values differing by 1; after `set_initialized` the first call
returns 1 and the second returns 2. -/
theorem increment_counter_returns_new {Rec : Type} (e e1 e2 : Env Rec) (v1 v2 : Nat) :
    (increment_counter e = some (e1, v1) → increment_counter e1 = some (e2, v2) →
      v2 = v1 + 1 ∧ v1 < v2 ∧ v1 = get_counter e + 1 ∧ v2 = get_counter e + 2) ∧
    (increment_counter envInit).map Prod.snd = some 1 ∧
    ((increment_counter envInit).bind
        (fun p => (increment_counter p.1).map Prod.snd)) = some 2 := by
  refine ⟨?_, by decide, by decide⟩
  intro h1 h2
  obtain ⟨hv1, hc1⟩ := increment_counter_eq h1
  obtain ⟨hv2, _⟩ := increment_counter_eq h2
  omega

/-- C5 witness: the sequential-call part applied to the concrete states
after `set_initialized`. -/
theorem increment_counter_returns_new_witness :
    2 = 1 + 1 ∧ 1 < 2 ∧ 1 = get_counter envInit + 1 ∧ 2 = get_counter envInit + 2 :=
  (increment_counter_returns_new envInit
      { envInit with counter := some 1 } { envInit with counter := some 2 } 1 2).1
    rfl rfl

/-- C6: `add_schedule_to_user_index u id` writes back the user's current
sequence (empty if absent) with `id` appended at the end; from the
fresh state, adding 5 yields `[5]` and then adding 9 yields `[5, 9]`. -/
theorem add_schedule_to_user_index_appends {Rec : Type} (e : Env Rec) (u id : Nat) :
    (get_user_schedule_ids (add_schedule_to_user_index e u id) u
      = get_user_schedule_ids e u ++ [id]) ∧
    get_user_schedule_ids (add_schedule_to_user_index (emptyEnv : Env Nat) u 5) u = [5] ∧
    get_user_schedule_ids
      (add_schedule_to_user_index
        (add_schedule_to_user_index (emptyEnv : Env Nat) u 5) u 9) u = [5, 9] := by
  refine ⟨?_, ?_, ?_⟩ <;>
    simp [get_user_schedule_ids, add_schedule_to_user_index, emptyEnv]

/-- C7: `get_user_schedules u` returns exactly the records of the ids in
the user's index whose schedule record is present, in index order,
silently skipping absent ones; concretely, with index `[1, 2]` and only
schedule 2 stored (as `42`), it returns `[42]`. -/
theorem get_user_schedules_skips_absent {Rec : Type} (e : Env Rec) (u : Nat) :
    get_user_schedules e u
      = (get_user_schedule_ids e u).filterMap (fun id => get_schedule e id) ∧
    get_user_schedules
      (set_schedule
        (add_schedule_to_user_index
          (add_schedule_to_user_index (emptyEnv : Env Nat) 0 1) 0 2) 2 42) 0
      = [42] := by
  constructor
  · exact foldl_push_some_eq_filterMap (fun id => get_schedule e id)
      (get_user_schedule_ids e u) []
  · decide

end AcademyStorage

namespace AcademyStorage

/-- C8 counterexample: in the state where the `ActiveSchedules` key is
absent (so 3 does not occur in the active index),
`remove_from_active_index 3` changes the stored state under the key —
it writes an empty sequence where before there was no entry. -/
theorem remove_absent_key_writes_counterexample :
    3 ∉ get_active_schedule_ids (emptyEnv : Env Nat) ∧
    (remove_from_active_index (emptyEnv : Env Nat) 3).active
      ≠ (emptyEnv : Env Nat).active := by
  refine ⟨by decide, ?_⟩
  rw [remove_from_active_index_active]
  simp [emptyEnv]

/-- C8 (amended): if the `ActiveSchedules` key is present and `id` does
not occur in the stored sequence, `remove_from_active_index id` leaves
the stored state under the key unchanged; if the key is absent, the call
writes an empty sequence under it, leaving `get_active_schedule_ids`
unchanged (empty before and after). -/
theorem remove_not_present_frame {Rec : Type} (e : Env Rec) (id : Nat) :
    (∀ l, e.active = some l → id ∉ l →
      (remove_from_active_index e id).active = e.active) ∧
    (e.active = none →
      (remove_from_active_index e id).active = some [] ∧
      get_active_schedule_ids (remove_from_active_index e id)
        = get_active_schedule_ids e) := by
  constructor
  · intro l hl hmem
    rw [remove_from_active_index_active, hl]
    simp only [Option.getD_some, Option.some.injEq]
    rw [List.filter_eq_self]
    intro a ha
    simp only [decide_eq_true_eq]
    exact fun heq => hmem (heq ▸ ha)
  · intro hnone
    rw [remove_from_active_index_active, hnone]
    constructor
    · simp
    · rw [get_active_schedule_ids, get_active_schedule_ids,
        remove_from_active_index_active, hnone]
      simp

/-- C8 witness: removing 9 from a present index `[1, 2]` not containing
it leaves the stored entry intact, and removing from the absent-key
state stores an empty sequence with unchanged read-back. -/
theorem remove_not_present_frame_witness :
    ((remove_from_active_index
        (add_to_active_index (add_to_active_index (emptyEnv : Env Nat) 1) 2) 9).active
      = (add_to_active_index (add_to_active_index (emptyEnv : Env Nat) 1) 2).active) ∧
    ((remove_from_active_index (emptyEnv : Env Nat) 9).active = some [] ∧
      get_active_schedule_ids (remove_from_active_index (emptyEnv : Env Nat) 9)
        = get_active_schedule_ids (emptyEnv : Env Nat)) :=
  ⟨(remove_not_present_frame
      (add_to_active_index (add_to_active_index (emptyEnv : Env Nat) 1) 2) 9).1
      [1, 2] rfl (by decide),
   (remove_not_present_frame (emptyEnv : Env Nat) 9).2 rfl⟩

/-- A version-1 state whose instance counter (5) is larger than the
legacy `"cnt"` value (3). -/
def envHighCounter : Env Nat :=
  { emptyEnv with version := some 1, counter := some 5, legacyCnt := some 3 }

/-- C9 counterexample: `migrate_storage` — an operation of this layer
other than `set_initialized` — decrements the counter: at version 1 with
instance counter 5 and legacy `"cnt"` 3, the counter drops from 5 to 3. -/
theorem migration_decrements_counter_counterexample :
    get_counter envHighCounter = 5 ∧
    get_counter (migrate_storage envHighCounter).1 = 3 := by
  constructor <;> rfl

/-- C9 (amended): a successful `increment_counter` never decreases the
counter (it returns a value strictly above the old counter), and no
other operation of this layer except `set_initialized` (reset to 0) and
`migrate_storage` (which at version 1 overwrites the counter with the
legacy `"cnt"` value, possibly lower) ever changes the counter at all. -/
theorem counter_monotone {Rec : Type} (e e' : Env Rec) (v a sid u : Nat) (r : Rec) :
    (increment_counter e = some (e', v) →
      get_counter e ≤ get_counter e' ∧ get_counter e < v) ∧
    get_counter (set_version e v) = get_counter e ∧
    get_counter (set_admin e a) = get_counter e ∧
    get_counter (set_token e a) = get_counter e ∧
    get_counter (set_governance e a) = get_counter e ∧
    get_counter (set_schedule e sid r) = get_counter e ∧
    get_counter (add_schedule_to_user_index e u sid) = get_counter e ∧
    get_counter (add_to_active_index e sid) = get_counter e ∧
    get_counter (remove_from_active_index e sid) = get_counter e := by
  refine ⟨?_, by rfl, by rfl, by rfl, by rfl, by rfl, by rfl, by rfl, by rfl⟩
  intro h
  obtain ⟨hv, hc⟩ := increment_counter_eq h
  omega

/-- C9 witness: the increment part applied after `set_initialized`. -/
theorem counter_monotone_witness :
    get_counter envInit ≤ get_counter { envInit with counter := some 1 } ∧
    get_counter envInit < 1 :=
  (counter_monotone envInit { envInit with counter := some 1 } 1 0 0 0 0).1 rfl

/-- C10: at version 1, `migrate_storage` unconditionally copies each
present legacy value over the current-layout key: afterwards
`get_admin`, `get_token`, `get_governance`, `get_counter` return the
legacy values, regardless of what the current keys held before. -/
theorem migration_overwrites_current {Rec : Type} (e : Env Rec) (a t g c : Nat)
    (h1 : get_version e = 1) :
    (e.legacyAdmin = some a → get_admin (migrate_storage e).1 = some a) ∧
    (e.legacyToken = some t → get_token (migrate_storage e).1 = some t) ∧
    (e.legacyGov = some g → get_governance (migrate_storage e).1 = some g) ∧
    (e.legacyCnt = some c → get_counter (migrate_storage e).1 = c) := by
  unfold get_version at h1
  refine ⟨?_, ?_, ?_, ?_⟩ <;> intro hk <;>
    cases ha : e.legacyAdmin <;> cases ht : e.legacyToken <;>
    cases hg : e.legacyGov <;> cases hc : e.legacyCnt <;>
    simp_all [migrate_storage, migrate_from_legacy, get_version,
      set_admin, set_token, set_governance, set_version,
      get_admin, get_token, get_governance, get_counter]

/-- A version-1 state where current-layout config and counter are
already set to values different from all four legacy values. -/
def envConflict : Env Nat :=
  { emptyEnv with
    version := some 1
    admin := some 100
    token := some 101
    governance := some 102
    counter := some 50
    legacyAdmin := some 1
    legacyToken := some 2
    legacyGov := some 3
    legacyCnt := some 4 }

/-- C10 witness: migration at a concrete conflicting state replaces the
previously set current values by the legacy ones. -/
theorem migration_overwrites_current_witness :
    get_admin (migrate_storage envConflict).1 = some 1 ∧
    get_token (migrate_storage envConflict).1 = some 2 ∧
    get_governance (migrate_storage envConflict).1 = some 3 ∧
    get_counter (migrate_storage envConflict).1 = 4 :=
  ⟨(migration_overwrites_current envConflict 1 2 3 4 rfl).1 rfl,
   (migration_overwrites_current envConflict 1 2 3 4 rfl).2.1 rfl,
   (migration_overwrites_current envConflict 1 2 3 4 rfl).2.2.1 rfl,
   (migration_overwrites_current envConflict 1 2 3 4 rfl).2.2.2 rfl⟩

end AcademyStorage
